import Mathlib

set_option linter.unusedVariables false

/-!
Verification development for the CycleTracker ride-tracking core.

The definitions below are shallow embeddings of the JavaScript sources:
- `src/src/hooks/useStats.js` (batch statistics path: `processRouteData`,
  `calculateDistance`, `formatSpeed`, `calculateCalories`,
  `calculateElevationGain`, `calculatePace`, `convertDistance`);
- `src/src/api/tracking.js` (tracking service: `startTracking`,
  `updateTracking`, `stopTracking`, `checkForInterruptedTracking`,
  `resumeInterruptedTracking`);
- `src/unnamed/part_004` (the TrackingContext controller: `calculateDistance`,
  `startTracking`, `handleLocationUpdate`, `updateStats`).

JavaScript numbers are modelled as real numbers; JS falsy tests on numbers
(`!x`, `x ? _ : _`, `x || d`) are modelled as comparison with 0; `Math.round`
is `⌊x + 1/2⌋` (round half toward +∞), `Math.floor` is `Int.floor`, and
`Number.toFixed(n)` is modelled as rounding to n decimal places.
External effects (geolocation, Firestore, AsyncStorage) are modelled as
explicit parameters and returned state: a `Cache` record stands for the
AsyncStorage keys, a list of document ids stands for the created session
records, and a boolean parameter stands for success of a persistence write.
-/

/-- A location sample as built by the sources:
`{latitude, longitude, timestamp, speed: speed || 0, altitude: altitude || 0}`. -/
structure LocationPoint where
  latitude : ℝ
  longitude : ℝ
  timestamp : ℝ
  speed : ℝ
  altitude : ℝ

/-- The preferred distance unit (`user?.settings?.distanceUnit`). -/
inductive DistUnit
  | km
  | mi
deriving DecidableEq

/-- JS `Math.round`: round half toward positive infinity. -/
noncomputable def jsRound (x : ℝ) : ℤ := Int.floor (x + 1/2)

/-- JS `x.toFixed(1)` (the sources store the result where it is read back
as a number): round to one decimal place. -/
noncomputable def toFixed1 (x : ℝ) : ℝ := (jsRound (x * 10) : ℝ) / 10

/-- JS `x.toFixed(2)`: round to two decimal places. -/
noncomputable def toFixed2 (x : ℝ) : ℝ := (jsRound (x * 100) : ℝ) / 100

/-- Source `deg2rad` from useStats.js / part_004: `deg * (Math.PI/180)`. -/
noncomputable def deg2rad (deg : ℝ) : ℝ := deg * (Real.pi / 180)

/-- JS `Math.atan2(y, x)`. -/
noncomputable def atan2 (y x : ℝ) : ℝ :=
  if 0 < x then Real.arctan (y / x)
  else if x < 0 then
    (if 0 ≤ y then Real.arctan (y / x) + Real.pi else Real.arctan (y / x) - Real.pi)
  else
    (if 0 < y then Real.pi / 2 else if y < 0 then -(Real.pi / 2) else 0)

/-- Source `calculateDistance` as written in part_004 (the TrackingContext), §4.1 of
the spec: haversine distance in km on Earth radius 6371, returning 0 when any
of the four inputs is falsy. The same body also serves, per the spec, as the
model of `calculateDistance` from the absent `src/utils/formatters.js`.

Modelled from the spec: `src/utils/formatters.js` is imported by
`src/src/api/tracking.js` but is not among the provided sources; spec §4.1
(haversine, mean radius 6371 km, falsy input ⇒ 0, symmetric) fixes its
`calculateDistance`, which this definition follows — it is also literally the
body of part_004's `calculateDistance`. -/
noncomputable def calculateDistance (lat1 lon1 lat2 lon2 : ℝ) : ℝ :=
  if lat1 = 0 ∨ lon1 = 0 ∨ lat2 = 0 ∨ lon2 = 0 then 0
  else
    let dLat := deg2rad (lat2 - lat1)
    let dLon := deg2rad (lon2 - lon1)
    let a := Real.sin (dLat/2) * Real.sin (dLat/2) +
      Real.cos (deg2rad lat1) * Real.cos (deg2rad lat2) *
      (Real.sin (dLon/2) * Real.sin (dLon/2))
    let c := 2 * atan2 (Real.sqrt a) (Real.sqrt (1 - a))
    6371 * c

/-- Source `calculateDistance` from useStats.js: same haversine body, then
`preferredUnit === 'mi' ? distanceKm * 0.621371 : distanceKm`. -/
noncomputable def calculateDistanceU (u : DistUnit) (lat1 lon1 lat2 lon2 : ℝ) : ℝ :=
  if u = DistUnit.mi then calculateDistance lat1 lon1 lat2 lon2 * 0.621371
  else calculateDistance lat1 lon1 lat2 lon2

/-- Source `formatSpeed` from useStats.js: falsy speed ⇒ 0, otherwise m/s → km/h
(×3.6), then ×0.621371 for miles. -/
noncomputable def formatSpeed (u : DistUnit) (speedMs : ℝ) : ℝ :=
  if speedMs = 0 then 0
  else if u = DistUnit.mi then speedMs * 3.6 * 0.621371
  else speedMs * 3.6

/-- Source `calculateCalories` from useStats.js. `weight` is
`user?.settings?.weight`; the JS default `weight || 70` also replaces a
present-but-zero weight by 70. -/
noncomputable def calculateCalories (weight : Option ℝ)
    (durationSec distanceKm averageSpeedKmh : ℝ) : ℤ :=
  let metValue : ℝ :=
    if averageSpeedKmh < 16 then 4.0
    else if averageSpeedKmh < 20 then 6.8
    else if averageSpeedKmh < 25 then 8.0
    else 10.0
  let w : ℝ :=
    match weight with
    | none => 70
    | some x => if x = 0 then 70 else x
  let durationHr := durationSec / 3600
  jsRound (metValue * 3.5 * w * durationHr / 200 * 100)

/-- The calorie estimate as worded by claim C6 / spec §4.2 step 6:
MET from strict-less-than thresholds on average speed, and
`round(MET × 3.5 × weightKg × durationHours / 200 × 100)` where weightKg
defaults to 70 (only) when the profile has none. -/
noncomputable def claimCalories (weight : Option ℝ)
    (durationSec averageSpeedKmh : ℝ) : ℤ :=
  let met : ℝ :=
    if averageSpeedKmh < 16 then 4.0
    else if averageSpeedKmh < 20 then 6.8
    else if averageSpeedKmh < 25 then 8.0
    else 10.0
  let weightKg : ℝ := weight.getD 70
  jsRound (met * 3.5 * weightKg * (durationSec / 3600) / 200 * 100)

/-- The list of consecutive pairs of a list — the iteration space of every
`for (let i = 1; i < n; i++)` loop over `(routeData[i-1], routeData[i])`
in the sources. -/
def consPairs {α : Type} : List α → List (α × α)
  | a :: b :: rest => (a, b) :: consPairs (b :: rest)
  | _ => []

/-- Source `calculateElevationGain` from useStats.js: fewer than two samples ⇒ 0,
otherwise sum the positive altitude deltas of consecutive samples.
(The JS `altitude || 0` default is the identity on real-valued altitudes.) -/
noncomputable def calculateElevationGain (routeData : List LocationPoint) : ℝ :=
  if routeData.length < 2 then 0
  else (consPairs routeData).foldl
    (fun totalGain p =>
      if p.2.altitude > p.1.altitude then totalGain + (p.2.altitude - p.1.altitude)
      else totalGain) 0

/-- Source `calculatePace` minutes component: `Math.floor(60 / speedKmh)`. -/
noncomputable def paceMinutes (speedKmh : ℝ) : ℤ := Int.floor (60 / speedKmh)

/-- Source `calculatePace` seconds component:
`Math.floor((minutesPerUnit - minutes) * 60)`. -/
noncomputable def paceSeconds (speedKmh : ℝ) : ℤ :=
  Int.floor ((60 / speedKmh - (Int.floor (60 / speedKmh) : ℝ)) * 60)

/-- Accumulator of the `processRouteData` loop in useStats.js. The JS
`minSpeed` starts at the `Infinity` sentinel, modelled as `none`. -/
structure BatchAcc where
  totalDistance : ℝ
  maxSpeed : ℝ
  minSpeed : Option ℝ
  speedSum : ℝ
  speedCount : ℕ
  speedData : List (ℝ × ℝ)
  pacesData : List (ℝ × ℝ)
  altitudeData : List (ℝ × ℝ)

/-- The initial accumulator of the `processRouteData` loop. -/
def initBatchAcc : BatchAcc :=
  { totalDistance := 0, maxSpeed := 0, minSpeed := none, speedSum := 0
    speedCount := 0, speedData := [], pacesData := [], altitudeData := [] }

/-- One iteration of the `processRouteData` loop of useStats.js over the pair
`(prevPoint, currentPoint)`: segment distance with GPS-jump rejection
(`if (segmentDistance > 0.1) continue`), speed aggregation over positive
formatted speeds with speed- and pace-series entries, then the altitude-series
entry — all skipped by the `continue` when the segment is a jump. -/
noncomputable def batchStep (u : DistUnit) (acc : BatchAcc)
    (prevPoint currentPoint : LocationPoint) : BatchAcc :=
  let segmentDistance := calculateDistanceU u
    prevPoint.latitude prevPoint.longitude
    currentPoint.latitude currentPoint.longitude
  if segmentDistance > 0.1 then acc
  else
    let speed := if currentPoint.speed = 0 then 0 else formatSpeed u currentPoint.speed
    let acc1 := { acc with totalDistance := acc.totalDistance + segmentDistance }
    let acc2 :=
      if speed > 0 then
        { acc1 with
          maxSpeed := max acc1.maxSpeed speed
          minSpeed := some (match acc1.minSpeed with
            | none => speed
            | some m => min m speed)
          speedSum := acc1.speedSum + speed
          speedCount := acc1.speedCount + 1
          speedData := acc1.speedData ++ [(currentPoint.timestamp, toFixed1 speed)]
          pacesData :=
            if paceMinutes speed < 60 then
              acc1.pacesData ++
                [(currentPoint.timestamp,
                  (paceMinutes speed : ℝ) + (paceSeconds speed : ℝ) / 60)]
            else acc1.pacesData }
      else acc1
    if currentPoint.altitude = 0 then acc2
    else { acc2 with
      altitudeData := acc2.altitudeData ++
        [(currentPoint.timestamp, toFixed1 currentPoint.altitude)] }

/-- The full `processRouteData` loop folded over the consecutive pairs. -/
noncomputable def batchFold (u : DistUnit) (routeData : List LocationPoint) : BatchAcc :=
  (consPairs routeData).foldl (fun acc p => batchStep u acc p.1 p.2) initBatchAcc

/-- The stats object produced by `processRouteData` (the argument of its
final `setStats`). `toFixed` formatting is modelled as decimal rounding. -/
structure StatsResult where
  distance : ℝ
  averageSpeed : ℝ
  maxSpeed : ℝ
  minSpeed : ℝ
  elevationGain : ℝ
  caloriesBurned : ℤ
  speedData : List (ℝ × ℝ)
  altitudeData : List (ℝ × ℝ)
  pacesData : List (ℝ × ℝ)

/-- Source `processRouteData` from useStats.js: fewer than two samples resets all
stats to zero; otherwise run the loop, compute average speed as
`speedSum/speedCount` (0 when no positive speed), elevation gain over the full
route, calories from the hook's `duration` and the computed aggregates, and
format the scalars (`minSpeed === Infinity ? 0 : …`). `weight` is the profile
weight and `duration` the hook's duration parameter. -/
noncomputable def processRouteData (u : DistUnit) (weight : Option ℝ)
    (duration : ℝ) (routeData : List LocationPoint) : StatsResult :=
  if routeData.length < 2 then
    { distance := 0, averageSpeed := 0, maxSpeed := 0, minSpeed := 0
      elevationGain := 0, caloriesBurned := 0
      speedData := [], altitudeData := [], pacesData := [] }
  else
    let acc := batchFold u routeData
    let averageSpeed := if acc.speedCount > 0 then acc.speedSum / (acc.speedCount : ℝ) else 0
    let elevationGain := calculateElevationGain routeData
    let caloriesBurned := calculateCalories weight duration acc.totalDistance averageSpeed
    { distance := toFixed2 acc.totalDistance
      averageSpeed := toFixed1 averageSpeed
      maxSpeed := toFixed1 acc.maxSpeed
      minSpeed := match acc.minSpeed with
        | none => 0
        | some m => toFixed1 m
      elevationGain := toFixed1 elevationGain
      caloriesBurned := caloriesBurned
      speedData := acc.speedData
      altitudeData := acc.altitudeData
      pacesData := acc.pacesData }

/-- Source `convertDistance` from useStats.js, including its `toFixed(2)` rounding;
first argument is the hook's `preferredUnit`, last is `toUnit`. -/
noncomputable def convertDistance (preferredUnit : DistUnit) (distance : ℝ)
    (toUnit : DistUnit) : ℝ :=
  if toUnit = DistUnit.km ∧ preferredUnit = DistUnit.mi then
    toFixed2 (distance / 0.621371)
  else if toUnit = DistUnit.mi ∧ preferredUnit = DistUnit.km then
    toFixed2 (distance * 0.621371)
  else distance

/-- The mutable `trackingService.trackingData` object of tracking.js.
`startTime` is a millisecond epoch (a JS `Date` used numerically; the initial
`null` coerces to 0 in JS arithmetic and is modelled as 0); the `Infinity`
sentinel of `minSpeed` is modelled as `none`; the `timer` and `routeSnapshot`
fields are never read and are omitted. -/
structure TrackingData where
  isTracking : Bool
  startTime : ℝ
  endTime : Option ℝ
  duration : ℝ
  distance : ℝ
  currentSpeed : ℝ
  maxSpeed : ℝ
  minSpeed : Option ℝ
  avgSpeed : ℝ
  locationHistory : List LocationPoint
  currentLocation : Option LocationPoint

/-- The AsyncStorage keys used by tracking.js
(`current_tracking_id`, `tracking_start_time`, `location_history`). -/
structure Cache where
  currentTrackingId : Option ℕ
  trackingStartTime : Option ℝ
  locationHistory : Option (List LocationPoint)

/-- Source `startTracking` from tracking.js. Parameters model the external calls:
`granted` the permission request, `loc` the initial
`getCurrentPositionAsync` sample, `now` the `new Date()` start time, `newId`
the freshly allocated Firestore document id. On denied permission the
function returns the error without touching state; otherwise it
unconditionally resets `trackingData` (there is no guard on an already
active session), pushes the initial sample and caches the id and start time.
Returns (new trackingData, new cache, `success` flag). -/
noncomputable def startTracking (st : TrackingData) (cache : Cache)
    (granted : Bool) (loc : LocationPoint) (now : ℝ) (newId : ℕ) :
    TrackingData × Cache × Bool :=
  if granted = false then (st, cache, false)
  else
    let reset : TrackingData :=
      { isTracking := true, startTime := now, endTime := none, duration := 0
        distance := 0, currentSpeed := 0, maxSpeed := 0, minSpeed := none
        avgSpeed := 0, locationHistory := [], currentLocation := none }
    let st1 := { reset with
      currentLocation := some loc
      locationHistory := [loc] }
    (st1,
     { cache with currentTrackingId := some newId, trackingStartTime := some now },
     true)

/-- Source `updateTracking` from tracking.js: early return when not tracking;
otherwise append the sample to the history, set the current location, add the
segment distance from the previous history entry (no GPS-jump rejection in
this path), update current/max/min speed from the reported speed, and set
avgSpeed = distance / elapsed hours and duration = elapsed seconds. The JS
reads `locationHistory[length - 2]` after the push, i.e. the last entry of
the history before the push, modelled with `getLast?`. The periodic
AsyncStorage snapshot mirrors `locationHistory` and adds no state. -/
noncomputable def updateTracking (st : TrackingData) (loc : LocationPoint) :
    TrackingData :=
  if st.isTracking = false then st
  else
    let st1 := { st with
      locationHistory := st.locationHistory ++ [loc]
      currentLocation := some loc }
    let st2 :=
      match st.locationHistory.getLast? with
      | none => st1
      | some prevLocation =>
        { st1 with
          distance := st1.distance +
            calculateDistance prevLocation.latitude prevLocation.longitude
              loc.latitude loc.longitude }
    let currentSpeed := if loc.speed = 0 then 0 else loc.speed * 3.6
    let st3 := { st2 with currentSpeed := currentSpeed }
    let st4 :=
      if currentSpeed > 0 then
        { st3 with
          maxSpeed := max st3.maxSpeed currentSpeed
          minSpeed := some (match st3.minSpeed with
            | none => currentSpeed
            | some m => min m currentSpeed) }
      else st3
    let totalTime := (loc.timestamp - st.startTime) / 1000 / 3600
    { st4 with
      avgSpeed := if totalTime > 0 then st4.distance / totalTime else 0
      duration := (loc.timestamp - st.startTime) / 1000 }

/-- Source `stopTracking` from tracking.js. `persistOk` models whether the Firestore
finalize write succeeds. The code mutates the tracking state (endTime,
isTracking := false, the Infinity fix of minSpeed) before the write; on a
failed write the catch block returns the error with those mutations kept and
the cache untouched; on success the AsyncStorage keys are cleared. When no
session is tracking it returns the `No active tracking session` error.
Returns (new trackingData, new cache, `success` flag). -/
noncomputable def stopTracking (st : TrackingData) (cache : Cache)
    (now : ℝ) (persistOk : Bool) : TrackingData × Cache × Bool :=
  if st.isTracking = false then (st, cache, false)
  else
    let st1 := { st with
      endTime := some now
      isTracking := false
      minSpeed := some (st.minSpeed.getD 0) }
    if persistOk then
      (st1,
       { currentTrackingId := none, trackingStartTime := none, locationHistory := none },
       true)
    else (st1, cache, false)

/-- Source `checkForInterruptedTracking` from tracking.js: interrupted iff both the
cached tracking id and start time are present; the cached history defaults
to `[]`. -/
def checkForInterruptedTracking (cache : Cache) :
    Option (ℕ × ℝ × List LocationPoint) :=
  match cache.currentTrackingId, cache.trackingStartTime with
  | some trackingId, some startTime =>
    some (trackingId, startTime, cache.locationHistory.getD [])
  | _, _ => none

/-- The `Calculate speeds from history` loop of `resumeInterruptedTracking`
in tracking.js: replay max/min speed from the cached samples' reported
speeds (Math.min against the Infinity sentinel is modelled on the option). -/
noncomputable def replaySpeeds (locationHistory : List LocationPoint)
    (st : TrackingData) : TrackingData :=
  locationHistory.foldl
    (fun s point =>
      if point.speed > 0 then
        let speedKmh := point.speed * 3.6
        { s with
          maxSpeed := max s.maxSpeed speedKmh
          minSpeed := some (match s.minSpeed with
            | none => speedKmh
            | some m => min m speedKmh) }
      else s) st

/-- Source `resumeInterruptedTracking` from tracking.js: reset the tracking state
from the cached data, recompute the distance as the plain sum of all
consecutive segment distances (no GPS-jump rejection in this path), set the
current location, replay max/min speed from the cached samples' reported
speeds, and restart updates. Duration and avgSpeed are left at 0. It neither
allocates a new session document nor rewrites the cached id; the cached
`trackingId` is returned. -/
noncomputable def resumeInterruptedTracking
    (interruptedData : ℕ × ℝ × List LocationPoint) (currentLoc : LocationPoint) :
    TrackingData × ℕ :=
  let trackingId := interruptedData.1
  let startTime := interruptedData.2.1
  let locationHistory := interruptedData.2.2
  let base : TrackingData :=
    { isTracking := true, startTime := startTime, endTime := none, duration := 0
      distance := 0, currentSpeed := 0, maxSpeed := 0, minSpeed := none
      avgSpeed := 0, locationHistory := locationHistory, currentLocation := none }
  let totalDistance :=
    if locationHistory.length > 1 then
      (consPairs locationHistory).foldl
        (fun acc p => acc +
          calculateDistance p.1.latitude p.1.longitude p.2.latitude p.2.longitude) 0
    else 0
  let st1 := { base with distance := totalDistance, currentLocation := some currentLoc }
  let st2 := replaySpeeds locationHistory st1
  (st2, trackingId)

/-- The stats object of the TrackingContext (part_004). -/
structure CtxStats where
  distance : ℝ
  currentSpeed : ℝ
  averageSpeed : ℝ
  maxSpeed : ℝ
  duration : ℝ
  startTime : Option ℝ
  endTime : Option ℝ

/-- Source `updateStats` from part_004: add the segment distance from
`lastLocationRef` only when it is below the 0.1 km jump threshold
(`if (segmentDistance < 0.1)`), compute the current speed from the reported
speed, max speed, duration from the wall clock (`nowMs` models `new Date()`)
against `startTimeRef`, and average speed as distance over elapsed hours. -/
noncomputable def updateStats (startTimeRef : ℝ) (lastLocation : Option LocationPoint)
    (nowMs : ℝ) (prevStats : CtxStats) (newLocation : LocationPoint) : CtxStats :=
  let newDistance :=
    match lastLocation with
    | none => prevStats.distance
    | some lastLoc =>
      let segmentDistance := calculateDistance
        lastLoc.latitude lastLoc.longitude
        newLocation.latitude newLocation.longitude
      if segmentDistance < 0.1 then prevStats.distance + segmentDistance
      else prevStats.distance
  let currentSpeed := if newLocation.speed = 0 then 0 else newLocation.speed * 3.6
  let maxSpeed := max prevStats.maxSpeed currentSpeed
  let duration := (nowMs - startTimeRef) / 1000
  let averageSpeed := if duration > 0 then newDistance / (duration / 3600) else 0
  { distance := newDistance, currentSpeed := currentSpeed
    averageSpeed := averageSpeed, maxSpeed := maxSpeed, duration := duration
    startTime := prevStats.startTime, endTime := none }

/-- Source `handleLocationUpdate` from part_004: set the current location, append
the sample to the route, and delegate to `updateStats`; returns
(new route, new stats, new lastLocation ref). -/
noncomputable def handleLocationUpdate (route : List LocationPoint)
    (stats : CtxStats) (startTimeRef : ℝ) (lastLocation : Option LocationPoint)
    (nowMs : ℝ) (loc : LocationPoint) :
    List LocationPoint × CtxStats × Option LocationPoint :=
  (route ++ [loc], updateStats startTimeRef lastLocation nowMs stats loc, some loc)

/-- The TrackingContext state (part_004). -/
structure CtxState where
  isTracking : Bool
  currentLocation : Option LocationPoint
  route : List LocationPoint
  stats : CtxStats
  activityDoc : Option ℕ
  startTimeRef : Option ℝ
  lastLocation : Option LocationPoint

/-- Source `startTracking` from part_004: `if (isTracking) return;` guard, then
(with permission granted and a current location sample) reset route and
stats, create a new activity document (`docs` models the collection of
created session records, `newDocId` the fresh id), set the refs, seed the
route with the first sample and subscribe. -/
noncomputable def ctxStartTracking (st : CtxState) (docs : List ℕ)
    (granted : Bool) (loc : LocationPoint) (now : ℝ) (newDocId : ℕ) :
    CtxState × List ℕ :=
  if st.isTracking then (st, docs)
  else if granted = false then (st, docs)
  else
    ({ isTracking := true
       currentLocation := some loc
       route := [loc]
       stats := { distance := 0, currentSpeed := 0, averageSpeed := 0
                  maxSpeed := 0, duration := 0, startTime := some now, endTime := none }
       activityDoc := some newDocId
       startTimeRef := some now
       lastLocation := some loc },
     docs ++ [newDocId])

/-- Replace a sample's reported speed and altitude, keeping its coordinates
and timestamp (used to state that a GPS-jump sample's speed and altitude are
never read by the batch loop). -/
def setSA (q : LocationPoint) (v a : ℝ) : LocationPoint :=
  { q with speed := v, altitude := a }

/-- The effective weight actually used by `calculateCalories`: the JS
`user?.settings?.weight || 70` defaults to 70 both when the profile has no
weight and when it records a falsy (zero) weight. -/
noncomputable def effectiveWeight (weight : Option ℝ) : ℝ :=
  match weight with
  | none => 70
  | some x => if x = 0 then 70 else x

/-- Concrete sample at the north-most coordinate pair (90, 90). -/
def pNorth : LocationPoint :=
  { latitude := 90, longitude := 90, timestamp := 0, speed := 0, altitude := 0 }

/-- Concrete sample at the south-most coordinate pair (-90, 90): the
haversine distance from `pNorth` is 6371·π km, far above the 0.1 km
jump threshold. -/
def pSouth : LocationPoint :=
  { latitude := -90, longitude := 90, timestamp := 1000, speed := 0, altitude := 0 }

/-- Concrete sample at (1, 1), epoch 0, no reported speed. -/
def qA : LocationPoint :=
  { latitude := 1, longitude := 1, timestamp := 0, speed := 0, altitude := 0 }

/-- Concrete sample at the same coordinates (1, 1), one hour later, with a
reported speed of 1 m/s. -/
def qB : LocationPoint :=
  { latitude := 1, longitude := 1, timestamp := 3600000, speed := 1, altitude := 0 }

/-- A concrete active tracking-service state whose history holds `pNorth`. -/
def stActiveNorth : TrackingData :=
  { isTracking := true, startTime := 0, endTime := none, duration := 0
    distance := 0, currentSpeed := 0, maxSpeed := 0, minSpeed := none
    avgSpeed := 0, locationHistory := [pNorth], currentLocation := some pNorth }

/-- A concrete active tracking-service state whose history holds `qA`
(the state right after a start at `qA`). -/
def stActiveA : TrackingData :=
  { isTracking := true, startTime := 0, endTime := none, duration := 0
    distance := 0, currentSpeed := 0, maxSpeed := 0, minSpeed := none
    avgSpeed := 0, locationHistory := [qA], currentLocation := some qA }

/-- A concrete active tracking-service state with accumulated data
(distance 5 km, two samples, max speed 20 km/h). -/
def stRich : TrackingData :=
  { isTracking := true, startTime := 0, endTime := none, duration := 120
    distance := 5, currentSpeed := 10, maxSpeed := 20, minSpeed := some 4
    avgSpeed := 15, locationHistory := [qA, qB], currentLocation := some qB }

/-- A concrete non-tracking (idle/paused) tracking-service state. -/
def stIdle : TrackingData :=
  { isTracking := false, startTime := 0, endTime := none, duration := 7
    distance := 3, currentSpeed := 2, maxSpeed := 9, minSpeed := some 1
    avgSpeed := 4, locationHistory := [qA], currentLocation := some qA }

/-- A concrete cache holding a previous session id 7. -/
def cache7 : Cache :=
  { currentTrackingId := some 7, trackingStartTime := some 0, locationHistory := none }

/-- A concrete active TrackingContext state with accumulated data. -/
def ctxActive : CtxState :=
  { isTracking := true, currentLocation := some qB, route := [qA, qB]
    stats := { distance := 2, currentSpeed := 10, averageSpeed := 12, maxSpeed := 20
               duration := 600, startTime := some 0, endTime := none }
    activityDoc := some 3, startTimeRef := some 0, lastLocation := some qB }

/-! General lemmas about the embedded definitions -/

theorem calculateDistance_self (lat lon : ℝ) : calculateDistance lat lon lat lon = 0 := by
  unfold calculateDistance
  by_cases h : lat = 0 ∨ lon = 0 ∨ lat = 0 ∨ lon = 0
  · simp [h]
  · have h0 : deg2rad (lat - lat) = 0 := by unfold deg2rad; ring
    have h1 : deg2rad (lon - lon) = 0 := by unfold deg2rad; ring
    simp only [if_neg h, h0, h1]
    norm_num [atan2]

theorem calculateDistance_comm (lat1 lon1 lat2 lon2 : ℝ) :
    calculateDistance lat1 lon1 lat2 lon2 = calculateDistance lat2 lon2 lat1 lon1 := by
  unfold calculateDistance
  by_cases h : lat1 = 0 ∨ lon1 = 0 ∨ lat2 = 0 ∨ lon2 = 0
  · have h2 : lat2 = 0 ∨ lon2 = 0 ∨ lat1 = 0 ∨ lon1 = 0 := by tauto
    simp [h, h2]
  · have h2 : ¬(lat2 = 0 ∨ lon2 = 0 ∨ lat1 = 0 ∨ lon1 = 0) := by tauto
    simp only [if_neg h, if_neg h2]
    have e1 : deg2rad (lat1 - lat2) = -(deg2rad (lat2 - lat1)) := by unfold deg2rad; ring
    have e2 : deg2rad (lon1 - lon2) = -(deg2rad (lon2 - lon1)) := by unfold deg2rad; ring
    have s1 : Real.sin (deg2rad (lat1 - lat2) / 2) * Real.sin (deg2rad (lat1 - lat2) / 2)
        = Real.sin (deg2rad (lat2 - lat1) / 2) * Real.sin (deg2rad (lat2 - lat1) / 2) := by
      rw [e1, neg_div, Real.sin_neg]; ring
    have s2 : Real.sin (deg2rad (lon1 - lon2) / 2) * Real.sin (deg2rad (lon1 - lon2) / 2)
        = Real.sin (deg2rad (lon2 - lon1) / 2) * Real.sin (deg2rad (lon2 - lon1) / 2) := by
      rw [e2, neg_div, Real.sin_neg]; ring
    rw [s1, s2, mul_comm (Real.cos (deg2rad lat2)) (Real.cos (deg2rad lat1))]

theorem calculateDistance_falsy (lat1 lon1 lat2 lon2 : ℝ)
    (h : lat1 = 0 ∨ lon1 = 0 ∨ lat2 = 0 ∨ lon2 = 0) :
    calculateDistance lat1 lon1 lat2 lon2 = 0 := by
  unfold calculateDistance
  rw [if_pos h]

theorem calculateDistance_jump : calculateDistance 90 90 (-90) 90 = 6371 * Real.pi := by
  unfold calculateDistance
  have h : ¬((90:ℝ) = 0 ∨ (90:ℝ) = 0 ∨ (-90:ℝ) = 0 ∨ (90:ℝ) = 0) := by norm_num
  simp only [if_neg h]
  have e1 : deg2rad ((-90:ℝ) - 90) = -Real.pi := by unfold deg2rad; ring
  have e2 : deg2rad ((90:ℝ) - 90) = 0 := by unfold deg2rad; ring
  have e3 : deg2rad (90:ℝ) = Real.pi / 2 := by unfold deg2rad; ring
  rw [e1, e2, e3]
  have hsin : Real.sin (-Real.pi / 2) = -1 := by
    rw [neg_div, Real.sin_neg, Real.sin_pi_div_two]
  rw [hsin, Real.cos_pi_div_two]
  norm_num [atan2]
  ring

theorem jump_distance_gt_threshold : (6371 : ℝ) * Real.pi > 0.1 := by
  nlinarith [Real.pi_gt_three]

theorem calculateDistanceU_km (lat1 lon1 lat2 lon2 : ℝ) :
    calculateDistanceU DistUnit.km lat1 lon1 lat2 lon2
      = calculateDistance lat1 lon1 lat2 lon2 := by
  simp [calculateDistanceU]

theorem foldl_add_map_sum {α : Type} (f : α → ℝ) (l : List α) (a : ℝ) :
    l.foldl (fun acc x => acc + f x) a = a + (l.map f).sum := by
  induction l generalizing a with
  | nil => simp
  | cons x xs ih => simp [ih, add_assoc]

theorem gain_foldl_eq_sum (l : List (LocationPoint × LocationPoint)) (g : ℝ) :
    l.foldl
      (fun totalGain p =>
        if p.2.altitude > p.1.altitude then totalGain + (p.2.altitude - p.1.altitude)
        else totalGain) g
      = g + (l.map (fun p => max 0 (p.2.altitude - p.1.altitude))).sum := by
  induction l generalizing g with
  | nil => simp
  | cons p ps ih =>
    simp only [List.foldl_cons, List.map_cons, List.sum_cons, ih]
    by_cases hp : p.2.altitude > p.1.altitude
    · rw [if_pos hp, max_eq_right (by linarith)]
      ring
    · rw [if_neg hp, max_eq_left (by linarith)]
      ring

theorem elevationGain_eq_sum (route : List LocationPoint) :
    calculateElevationGain route
      = ((consPairs route).map (fun p => max 0 (p.2.altitude - p.1.altitude))).sum := by
  unfold calculateElevationGain
  by_cases h : route.length < 2
  · rw [if_pos h]
    match route, h with
    | [], _ => simp [consPairs]
    | [a], _ => simp [consPairs]
  · rw [if_neg h, gain_foldl_eq_sum]
    ring

theorem consPairs_append {α : Type} (pre : List α) (x y : α) (post : List α) :
    consPairs (pre ++ x :: y :: post)
      = consPairs (pre ++ [x]) ++ (x, y) :: consPairs (y :: post) := by
  induction pre with
  | nil => simp [consPairs]
  | cons a pre ih =>
    cases pre with
    | nil => simp [consPairs]
    | cons b pre2 =>
      simp only [List.cons_append, consPairs, List.append_eq] at ih ⊢
      rw [ih]

theorem batchStep_prev_coords (u : DistUnit) (acc : BatchAcc) (p p' c : LocationPoint)
    (h1 : p.latitude = p'.latitude) (h2 : p.longitude = p'.longitude) :
    batchStep u acc p c = batchStep u acc p' c := by
  unfold batchStep
  rw [h1, h2]

theorem batchStep_skip (u : DistUnit) (acc : BatchAcc) (p c : LocationPoint)
    (h : calculateDistanceU u p.latitude p.longitude c.latitude c.longitude > 0.1) :
    batchStep u acc p c = acc := by
  unfold batchStep
  simp only [if_pos h]

theorem foldPairs_head_setSA (u : DistUnit) (acc : BatchAcc) (y : LocationPoint)
    (v a : ℝ) (post : List LocationPoint) :
    (consPairs (setSA y v a :: post)).foldl (fun acc p => batchStep u acc p.1 p.2) acc
      = (consPairs (y :: post)).foldl (fun acc p => batchStep u acc p.1 p.2) acc := by
  cases post with
  | nil => simp [consPairs]
  | cons z rest =>
    simp only [consPairs, List.foldl_cons]
    rw [batchStep_prev_coords u acc (setSA y v a) y z rfl rfl]

theorem batchFold_jump_invariant (u : DistUnit) (pre : List LocationPoint)
    (x y : LocationPoint) (post : List LocationPoint) (v a : ℝ)
    (hjump : calculateDistanceU u x.latitude x.longitude y.latitude y.longitude > 0.1) :
    batchFold u (pre ++ x :: setSA y v a :: post)
      = batchFold u (pre ++ x :: y :: post) := by
  unfold batchFold
  rw [consPairs_append, consPairs_append, List.foldl_append, List.foldl_append]
  simp only [List.foldl_cons]
  rw [batchStep_skip u _ x (setSA y v a) hjump, batchStep_skip u _ x y hjump]
  exact foldPairs_head_setSA u _ y v a post

theorem replaySpeeds_preserves (l : List LocationPoint) (s : TrackingData) :
    (replaySpeeds l s).isTracking = s.isTracking
    ∧ (replaySpeeds l s).startTime = s.startTime
    ∧ (replaySpeeds l s).distance = s.distance
    ∧ (replaySpeeds l s).duration = s.duration
    ∧ (replaySpeeds l s).avgSpeed = s.avgSpeed
    ∧ (replaySpeeds l s).locationHistory = s.locationHistory
    ∧ (replaySpeeds l s).currentLocation = s.currentLocation := by
  induction l generalizing s with
  | nil => simp [replaySpeeds]
  | cons p ps ih =>
    unfold replaySpeeds
    simp only [List.foldl_cons]
    by_cases hp : p.speed > 0
    · simp only [if_pos hp]
      exact ih _
    · simp only [if_neg hp]
      exact ih s

theorem resume_distance_sum (hist : List LocationPoint) :
    (if hist.length > 1 then
      (consPairs hist).foldl
        (fun acc p => acc +
          calculateDistance p.1.latitude p.1.longitude p.2.latitude p.2.longitude) 0
    else 0)
      = ((consPairs hist).map (fun p =>
          calculateDistance p.1.latitude p.1.longitude p.2.latitude p.2.longitude)).sum := by
  by_cases h : hist.length > 1
  · rw [if_pos h, foldl_add_map_sum]
    ring
  · rw [if_neg h]
    match hist with
    | [] => simp [consPairs]
    | [a] => simp [consPairs]
    | a :: b :: t => exact absurd (by simp only [List.length_cons]; omega) h

/-! Claim theorems -/

/-- C10: for every location sample delivered while `isTracking` is false,
`updateTracking` returns immediately and every field of the tracking state —
location history, distance, current/max/min/average speed, duration, and
current location — is unchanged. -/
theorem updateTracking_noop_when_not_tracking (st : TrackingData)
    (loc : LocationPoint) (h : st.isTracking = false) :
    (updateTracking st loc).locationHistory = st.locationHistory
    ∧ (updateTracking st loc).distance = st.distance
    ∧ (updateTracking st loc).currentSpeed = st.currentSpeed
    ∧ (updateTracking st loc).maxSpeed = st.maxSpeed
    ∧ (updateTracking st loc).minSpeed = st.minSpeed
    ∧ (updateTracking st loc).avgSpeed = st.avgSpeed
    ∧ (updateTracking st loc).duration = st.duration
    ∧ (updateTracking st loc).currentLocation = st.currentLocation := by
  simp [updateTracking, h]

/-- C10 witness: the no-op at a concrete paused state and sample. -/
theorem updateTracking_noop_when_not_tracking_witness :
    (updateTracking stIdle qB).locationHistory = stIdle.locationHistory
    ∧ (updateTracking stIdle qB).distance = stIdle.distance
    ∧ (updateTracking stIdle qB).currentSpeed = stIdle.currentSpeed
    ∧ (updateTracking stIdle qB).maxSpeed = stIdle.maxSpeed
    ∧ (updateTracking stIdle qB).minSpeed = stIdle.minSpeed
    ∧ (updateTracking stIdle qB).avgSpeed = stIdle.avgSpeed
    ∧ (updateTracking stIdle qB).duration = stIdle.duration
    ∧ (updateTracking stIdle qB).currentLocation = stIdle.currentLocation :=
  updateTracking_noop_when_not_tracking stIdle qB rfl

/-- C5 (amended): in the TrackingContext controller, calling start while a
session is Active (`isTracking` true) is a no-op — state and the created
session records are untouched. The guard does not cover the Paused state,
and the tracking service's start has no guard at all (see the
counterexample). -/
theorem ctxStartTracking_noop_when_active (st : CtxState) (docs : List ℕ)
    (granted : Bool) (loc : LocationPoint) (now : ℝ) (newDocId : ℕ)
    (h : st.isTracking = true) :
    ctxStartTracking st docs granted loc now newDocId = (st, docs) := by
  simp [ctxStartTracking, h]

/-- C5 witness: the guard at a concrete active context state. -/
theorem ctxStartTracking_noop_when_active_witness :
    ctxStartTracking ctxActive [3] true qA 5 9 = (ctxActive, [3]) :=
  ctxStartTracking_noop_when_active ctxActive [3] true qA 5 9 rfl

/-- C5 counterexample: the tracking service's `startTracking` has no
idempotent guard — called on an Active session it wipes the accumulated
distance and route and caches a fresh session id. -/
theorem startTracking_resets_active_session :
    stRich.isTracking = true
    ∧ stRich.distance = 5
    ∧ stRich.locationHistory = [qA, qB]
    ∧ (startTracking stRich cache7 true pNorth 0 42).1.distance = 0
    ∧ (startTracking stRich cache7 true pNorth 0 42).1.locationHistory = [pNorth]
    ∧ (startTracking stRich cache7 true pNorth 0 42).2.1.currentTrackingId = some 42
    ∧ cache7.currentTrackingId = some 7
    ∧ (5 : ℝ) ≠ 0
    ∧ (some 42 : Option ℕ) ≠ some 7 := by
  refine ⟨rfl, rfl, rfl, ?_, ?_, ?_, rfl, by norm_num, by decide⟩ <;>
    simp [startTracking]

/-- C3: `stopTracking` in the tracking service mutates the session state
before the fallible persistence write: after a failed finalize it reports
the error but `isTracking` has been set to false, and a retry of stop hits
the no-active-session guard and fails — contradicting the claim that the
session remains Active/Paused and can be retried. -/
theorem stopTracking_failure_clears_active (st : TrackingData) (cache : Cache)
    (now : ℝ) (h : st.isTracking = true) :
    (stopTracking st cache now false).2.2 = false
    ∧ (stopTracking st cache now false).1.isTracking = false
    ∧ (stopTracking (stopTracking st cache now false).1 cache now true).2.2 = false := by
  simp [stopTracking, h]

/-- C3 witness: the failed stop and impossible retry at a concrete active
state. -/
theorem stopTracking_failure_clears_active_witness :
    (stopTracking stActiveA cache7 99 false).2.2 = false
    ∧ (stopTracking stActiveA cache7 99 false).1.isTracking = false
    ∧ (stopTracking (stopTracking stActiveA cache7 99 false).1 cache7 99 true).2.2 = false :=
  stopTracking_failure_clears_active stActiveA cache7 99 rfl

/-- C7: the distance calculator (part_004's `calculateDistance` and the
useStats variant for either preferred unit) is symmetric, returns 0 on two
identical points, and returns the defined zero when any of the four
coordinates is falsy. -/
theorem distance_symm_zero_falsy (u : DistUnit) (lat1 lon1 lat2 lon2 : ℝ) :
    calculateDistanceU u lat1 lon1 lat2 lon2 = calculateDistanceU u lat2 lon2 lat1 lon1
    ∧ calculateDistanceU u lat1 lon1 lat1 lon1 = 0
    ∧ ((lat1 = 0 ∨ lon1 = 0 ∨ lat2 = 0 ∨ lon2 = 0) →
        calculateDistanceU u lat1 lon1 lat2 lon2 = 0)
    ∧ calculateDistanceU DistUnit.km lat1 lon1 lat2 lon2
        = calculateDistance lat1 lon1 lat2 lon2 := by
  refine ⟨?_, ?_, ?_, calculateDistanceU_km lat1 lon1 lat2 lon2⟩
  · unfold calculateDistanceU
    rw [calculateDistance_comm lat1 lon1 lat2 lon2]
  · unfold calculateDistanceU
    rw [calculateDistance_self]
    simp
  · intro h
    unfold calculateDistanceU
    rw [calculateDistance_falsy lat1 lon1 lat2 lon2 h]
    simp

/-- C7 witness: the falsy-zero branch at a concrete input with latitude 0. -/
theorem distance_symm_zero_falsy_witness :
    calculateDistanceU DistUnit.km 0 1 2 3 = 0 :=
  (distance_symm_zero_falsy DistUnit.km 0 1 2 3).2.2.1 (Or.inl rfl)

/-- C6 (amended): the calorie estimate equals the claimed MET formula with
the effective weight, which defaults to 70 both when the profile has no
weight and when it records a falsy (zero) weight; and an average speed of
exactly 16 km/h selects MET 6.8 (yielding 833 for one hour at the default
weight), not MET 4.0 (which would yield 490). -/
theorem calories_met_formula (weight : Option ℝ)
    (durationSec distanceKm averageSpeedKmh : ℝ) :
    calculateCalories weight durationSec distanceKm averageSpeedKmh
      = claimCalories (some (effectiveWeight weight)) durationSec averageSpeedKmh
    ∧ calculateCalories none 3600 0 16 = 833
    ∧ jsRound ((4.0 : ℝ) * 3.5 * 70 * (3600 / 3600) / 200 * 100) = 490
    ∧ (833 : ℤ) ≠ 490 := by
  refine ⟨?_, ?_, ?_, by decide⟩
  · unfold calculateCalories claimCalories effectiveWeight
    simp [Option.getD]
  · unfold calculateCalories jsRound
    norm_num
  · unfold jsRound
    norm_num

/-- C6 counterexample: for a profile that records weight 0, the code uses the
default 70 (JS `weight || 70`), while the claim's formula with
`weightKg = 0` yields 0 calories — one hour at any speed gives 490 vs 0. -/
theorem calories_falsy_weight_counterexample :
    calculateCalories (some 0) 3600 0 0 = 490
    ∧ claimCalories (some 0) 3600 0 = 0
    ∧ (490 : ℤ) ≠ 0 := by
  refine ⟨?_, ?_, by decide⟩
  · unfold calculateCalories jsRound
    norm_num
  · unfold claimCalories jsRound
    norm_num

theorem toFixed2_close (x : ℝ) : |toFixed2 x - x| ≤ 1 / 200 := by
  unfold toFixed2 jsRound
  rw [abs_le]
  constructor
  · have h := Int.lt_floor_add_one (x * 100 + 1/2)
    have h100 : (0:ℝ) < 100 := by norm_num
    nlinarith [h]
  · have h := Int.floor_le (x * 100 + 1/2)
    nlinarith [h]

/-- C8 (amended): the bare multiply-then-divide by 0.621371 recovers a
distance exactly, but the unit-conversion helper applies `toFixed(2)`
rounding in each direction, so the km→mi→km round trip through the helper
recovers the original only within 27/2000 = 0.0135 — not within 1e-6. -/
theorem convert_roundtrip_bounded (d : ℝ) :
    d * 0.621371 / 0.621371 = d
    ∧ |convertDistance DistUnit.mi (convertDistance DistUnit.km d DistUnit.mi)
         DistUnit.km - d| ≤ 27 / 2000 := by
  constructor
  · field_simp
  · have e1 : convertDistance DistUnit.km d DistUnit.mi = toFixed2 (d * 0.621371) := by
      simp [convertDistance]
    have e2 : ∀ z : ℝ, convertDistance DistUnit.mi z DistUnit.km = toFixed2 (z / 0.621371) := by
      intro z
      simp [convertDistance]
    rw [e1, e2]
    have h1 : |toFixed2 (d * 0.621371) - d * 0.621371| ≤ 1 / 200 :=
      toFixed2_close (d * 0.621371)
    have h2 : |toFixed2 (d * 0.621371) / 0.621371 - d| ≤ (1 / 200) / 0.621371 := by
      have e3 : toFixed2 (d * 0.621371) / 0.621371 - d
          = (toFixed2 (d * 0.621371) - d * 0.621371) / 0.621371 := by
        field_simp
        ring
      rw [e3, abs_div]
      have : |(0.621371 : ℝ)| = 0.621371 := by
        rw [abs_of_pos]
        norm_num
      rw [this]
      apply div_le_div_of_nonneg_right h1 (by norm_num) |>.trans
      norm_num
    have h3 : |toFixed2 (toFixed2 (d * 0.621371) / 0.621371)
        - toFixed2 (d * 0.621371) / 0.621371| ≤ 1 / 200 :=
      toFixed2_close _
    calc |toFixed2 (toFixed2 (d * 0.621371) / 0.621371) - d|
        ≤ |toFixed2 (toFixed2 (d * 0.621371) / 0.621371)
            - toFixed2 (d * 0.621371) / 0.621371|
          + |toFixed2 (d * 0.621371) / 0.621371 - d| := abs_sub_le _ _ _
      _ ≤ 1 / 200 + (1 / 200) / 0.621371 := add_le_add h3 h2
      _ ≤ 27 / 2000 := by norm_num

/-- C8 counterexample: the round trip of 0.005 km through the helper returns
0 (the mi value 0.0031… rounds to 0.00), an error of 0.005 > 1e-6. -/
theorem convert_roundtrip_exceeds_tolerance :
    |convertDistance DistUnit.mi (convertDistance DistUnit.km 0.005 DistUnit.mi)
       DistUnit.km - 0.005| > 1 / 1000000 := by
  have e1 : convertDistance DistUnit.km 0.005 DistUnit.mi = 0 := by
    simp only [convertDistance, reduceCtorEq]
    norm_num
    unfold toFixed2 jsRound
    norm_num
  rw [e1]
  have e2 : convertDistance DistUnit.mi 0 DistUnit.km = 0 := by
    simp only [convertDistance, reduceCtorEq]
    norm_num
    unfold toFixed2 jsRound
    norm_num
  rw [e2]
  rw [abs_of_nonpos (by norm_num)]
  norm_num

/-- C2: the tracking service's `updateTracking` has no GPS-jump rejection —
a segment of 6371·π km (far above the 0.1 km threshold) is added in full to
the accumulated distance instead of contributing 0, although both samples do
remain in the stored route. -/
theorem updateTracking_accumulates_jump_segment :
    calculateDistance pNorth.latitude pNorth.longitude pSouth.latitude pSouth.longitude
      = 6371 * Real.pi
    ∧ (6371 : ℝ) * Real.pi > 0.1
    ∧ (updateTracking stActiveNorth pSouth).locationHistory = [pNorth, pSouth]
    ∧ (updateTracking stActiveNorth pSouth).distance = 6371 * Real.pi
    ∧ (6371 : ℝ) * Real.pi ≠ 0 := by
  have hd : calculateDistance pNorth.latitude pNorth.longitude
      pSouth.latitude pSouth.longitude = 6371 * Real.pi := by
    show calculateDistance 90 90 (-90) 90 = 6371 * Real.pi
    exact calculateDistance_jump
  have hpi := Real.pi_pos
  refine ⟨hd, jump_distance_gt_threshold, ?_, ?_, by nlinarith⟩
  · norm_num [updateTracking, stActiveNorth, pNorth, pSouth]
  · have hlast : (stActiveNorth.locationHistory).getLast? = some pNorth := rfl
    rw [show (6371 : ℝ) * Real.pi = calculateDistance pNorth.latitude pNorth.longitude
      pSouth.latitude pSouth.longitude from hd.symm]
    norm_num [updateTracking, stActiveNorth, hlast, pNorth, pSouth]

/-- C1: the batch path and the incremental path disagree — over the same two
samples (identical coordinates, one hour apart, second sample reporting
1 m/s) `processRouteData` reports an average speed of 3.6 km/h (the mean of
the positive sample speeds) while the service's `updateTracking` reports 0
(total distance over elapsed time). -/
theorem batch_vs_incremental_average_diverges :
    (processRouteData DistUnit.km none 3600 [qA, qB]).averageSpeed = 3.6
    ∧ (updateTracking stActiveA qB).avgSpeed = 0
    ∧ (3.6 : ℝ) ≠ 0 := by
  have hd0 : calculateDistance 1 1 1 1 = 0 := calculateDistance_self 1 1
  refine ⟨?_, ?_, by norm_num⟩
  · have hlen : ¬(([qA, qB] : List LocationPoint).length < 2) := by simp
    have hpairs : consPairs ([qA, qB] : List LocationPoint) = [(qA, qB)] := rfl
    have hdu : calculateDistanceU DistUnit.km 1 1 1 1 = 0 := by
      rw [calculateDistanceU_km]
      exact hd0
    simp only [processRouteData, if_neg hlen, batchFold, hpairs,
      List.foldl_cons, List.foldl_nil]
    simp only [batchStep, formatSpeed, qA, qB, initBatchAcc, reduceCtorEq,
      if_false, hdu]
    norm_num [toFixed1, jsRound]
  · have hlast : (stActiveA.locationHistory).getLast? = some qA := rfl
    norm_num [updateTracking, stActiveA, hlast, qA, qB, hd0]

/-- C4 counterexample: crash recovery recomputes the distance without
GPS-jump rejection — over a cached two-sample route whose single segment is
6371·π km, `resumeInterruptedTracking` reconstructs distance 6371·π while the
§4.2 batch computation (`processRouteData`) rejects the segment and reports
distance 0. -/
theorem recovery_skips_no_jumps :
    (resumeInterruptedTracking (1, 0, [pNorth, pSouth]) qA).1.distance
      = 6371 * Real.pi
    ∧ (processRouteData DistUnit.km none 0 [pNorth, pSouth]).distance = 0
    ∧ (6371 : ℝ) * Real.pi ≠ 0 := by
  have hd : calculateDistance pNorth.latitude pNorth.longitude
      pSouth.latitude pSouth.longitude = 6371 * Real.pi := by
    show calculateDistance 90 90 (-90) 90 = 6371 * Real.pi
    exact calculateDistance_jump
  have hdu : calculateDistanceU DistUnit.km pNorth.latitude pNorth.longitude
      pSouth.latitude pSouth.longitude = 6371 * Real.pi := by
    rw [calculateDistanceU_km]
    exact hd
  have hpi := Real.pi_pos
  refine ⟨?_, ?_, by nlinarith⟩
  · have hpairs : consPairs ([pNorth, pSouth] : List LocationPoint)
        = [(pNorth, pSouth)] := rfl
    simp only [resumeInterruptedTracking]
    rw [(replaySpeeds_preserves _ _).2.2.1]
    simp only [hpairs, List.foldl_cons, List.foldl_nil]
    norm_num [hd]
  · have hlen : ¬(([pNorth, pSouth] : List LocationPoint).length < 2) := by simp
    have hpairs : consPairs ([pNorth, pSouth] : List LocationPoint)
        = [(pNorth, pSouth)] := rfl
    simp only [processRouteData, if_neg hlen, batchFold, hpairs,
      List.foldl_cons, List.foldl_nil]
    rw [batchStep_skip DistUnit.km initBatchAcc pNorth pSouth
      (by rw [hdu]; exact jump_distance_gt_threshold)]
    norm_num [initBatchAcc, toFixed2, jsRound]

/-- C4 (amended): when the cache holds a session id, start time and route
snapshot, `checkForInterruptedTracking` reports them and
`resumeInterruptedTracking` resumes directly in the Active state with the
cached start time and route, reuses the cached session id (it neither
allocates a new document id nor rewrites the cache), recomputes the total
distance as the plain sum of all consecutive segment distances with no
GPS-jump rejection, and resets duration and average speed to 0 rather than
recomputing them. -/
theorem recovery_reconstruction (cache : Cache) (id : ℕ) (t : ℝ)
    (hist : List LocationPoint) (loc : LocationPoint)
    (h1 : cache.currentTrackingId = some id)
    (h2 : cache.trackingStartTime = some t)
    (h3 : cache.locationHistory = some hist) :
    checkForInterruptedTracking cache = some (id, t, hist)
    ∧ (resumeInterruptedTracking (id, t, hist) loc).2 = id
    ∧ (resumeInterruptedTracking (id, t, hist) loc).1.isTracking = true
    ∧ (resumeInterruptedTracking (id, t, hist) loc).1.startTime = t
    ∧ (resumeInterruptedTracking (id, t, hist) loc).1.locationHistory = hist
    ∧ (resumeInterruptedTracking (id, t, hist) loc).1.distance
        = ((consPairs hist).map (fun p =>
            calculateDistance p.1.latitude p.1.longitude p.2.latitude p.2.longitude)).sum
    ∧ (resumeInterruptedTracking (id, t, hist) loc).1.duration = 0
    ∧ (resumeInterruptedTracking (id, t, hist) loc).1.avgSpeed = 0 := by
  refine ⟨?_, ?_, ?_, ?_, ?_, ?_, ?_, ?_⟩
  · simp [checkForInterruptedTracking, h1, h2, h3]
  · simp only [resumeInterruptedTracking]
  · simp only [resumeInterruptedTracking]
    rw [(replaySpeeds_preserves _ _).1]
  · simp only [resumeInterruptedTracking]
    rw [(replaySpeeds_preserves _ _).2.1]
  · simp only [resumeInterruptedTracking]
    rw [(replaySpeeds_preserves _ _).2.2.2.2.2.1]
  · simp only [resumeInterruptedTracking]
    rw [(replaySpeeds_preserves _ _).2.2.1]
    exact resume_distance_sum hist
  · simp only [resumeInterruptedTracking]
    rw [(replaySpeeds_preserves _ _).2.2.2.1]
  · simp only [resumeInterruptedTracking]
    rw [(replaySpeeds_preserves _ _).2.2.2.2.1]

/-- C4 witness: the reconstruction at a concrete cache holding id 1, start
time 0 and a one-sample route snapshot. -/
theorem recovery_reconstruction_witness :
    checkForInterruptedTracking ⟨some 1, some 0, some [qA]⟩ = some (1, 0, [qA])
    ∧ (resumeInterruptedTracking (1, 0, [qA]) qB).2 = 1
    ∧ (resumeInterruptedTracking (1, 0, [qA]) qB).1.isTracking = true
    ∧ (resumeInterruptedTracking (1, 0, [qA]) qB).1.startTime = 0
    ∧ (resumeInterruptedTracking (1, 0, [qA]) qB).1.locationHistory = [qA]
    ∧ (resumeInterruptedTracking (1, 0, [qA]) qB).1.distance
        = ((consPairs [qA]).map (fun p =>
            calculateDistance p.1.latitude p.1.longitude p.2.latitude p.2.longitude)).sum
    ∧ (resumeInterruptedTracking (1, 0, [qA]) qB).1.duration = 0
    ∧ (resumeInterruptedTracking (1, 0, [qA]) qB).1.avgSpeed = 0 :=
  recovery_reconstruction ⟨some 1, some 0, some [qA]⟩ 1 0 [qA] qB rfl rfl rfl

/-- C9: in the batch computation, a sample whose segment from its predecessor
exceeds the 0.1 jump threshold is skipped for that iteration — replacing its
reported speed and altitude by any values changes none of the loop outputs
(distance, max/min/sum/count of speeds, speed-, pace- and altitude-series),
so the whole `processRouteData` result can change only in the elevation gain;
and the elevation gain is the sum of positive altitude deltas over all
consecutive pairs of the full route, the skipped sample included. -/
theorem jump_sample_contributes_only_elevation (u : DistUnit) (w : Option ℝ)
    (dur : ℝ) (pre : List LocationPoint) (x y : LocationPoint)
    (post : List LocationPoint)
    (hjump : calculateDistanceU u x.latitude x.longitude y.latitude y.longitude > 0.1) :
    (∀ v a : ℝ,
      processRouteData u w dur (pre ++ x :: setSA y v a :: post)
        = { processRouteData u w dur (pre ++ x :: y :: post) with
            elevationGain :=
              toFixed1 (calculateElevationGain (pre ++ x :: setSA y v a :: post)) })
    ∧ calculateElevationGain (pre ++ x :: y :: post)
        = ((consPairs (pre ++ x :: y :: post)).map
            (fun p => max 0 (p.2.altitude - p.1.altitude))).sum := by
  constructor
  · intro v a
    have hfold := batchFold_jump_invariant u pre x y post v a hjump
    have hlen1 : ¬((pre ++ x :: setSA y v a :: post).length < 2) := by
      simp only [List.length_append, List.length_cons]
      omega
    have hlen2 : ¬((pre ++ x :: y :: post).length < 2) := by
      simp only [List.length_append, List.length_cons]
      omega
    simp only [processRouteData, if_neg hlen1, if_neg hlen2, hfold]
  · exact elevationGain_eq_sum _

/-- C9 witness: the invariance at a concrete two-sample route whose single
segment is a jump, replacing the second sample's speed by 2 and altitude
by 3. -/
theorem jump_sample_contributes_only_elevation_witness :
    (0.1 : ℝ) < calculateDistanceU DistUnit.km pNorth.latitude pNorth.longitude
        pSouth.latitude pSouth.longitude
    ∧ processRouteData DistUnit.km none 0 ([] ++ pNorth :: setSA pSouth 2 3 :: [])
        = { processRouteData DistUnit.km none 0 ([] ++ pNorth :: pSouth :: []) with
            elevationGain :=
              toFixed1 (calculateElevationGain ([] ++ pNorth :: setSA pSouth 2 3 :: [])) } := by
  have hj : calculateDistanceU DistUnit.km pNorth.latitude pNorth.longitude
      pSouth.latitude pSouth.longitude > 0.1 := by
    rw [calculateDistanceU_km]
    show calculateDistance 90 90 (-90) 90 > 0.1
    rw [calculateDistance_jump]
    exact jump_distance_gt_threshold
  exact ⟨hj,
    (jump_sample_contributes_only_elevation DistUnit.km none 0 [] pNorth pSouth [] hj).1 2 3⟩
